import Mathlib

/-!
# Verification of the TODO HTTP handler layer

Shallow embedding of the repository's request-handling layer:

* `model/todo.go` — the data-transfer shapes (`TODO`, the request/response
  pairs for Create / Read / Update / Delete);
* `handler/todo.go` — the `TODOHandler` with `ServeHTTP` (method dispatch),
  `handleCreate` / `handleUpdate` (decode, validate, delegate, map errors,
  encode) and the service-delegating methods `Create`, `Read`, `Update`,
  `Delete`.

Conventions of the embedding:

* Go `int64` is modelled as `Int` (no arithmetic near the 64-bit boundary is
  performed by this layer, so overflow is not observable here).
* `time.Time` is modelled as an opaque `Nat` tick; the handler layer never
  computes with timestamps, it only copies them.
* A Go pointer that may be `nil` is an `Option`; a Go `error` result is an
  `Option GoError` (`none` = `nil` error).
* The external service collaborator (`service.TODOService`) is a record of
  result functions; the handler under verification is parametric in it.
* `encoding/json` decoding into the request structs is modelled by `Json`
  values plus per-struct decoders following the library's documented
  behaviour: absent fields keep their zero value, unknown fields are ignored,
  `null` leaves a field untouched, a type mismatch is an error, and a
  syntactically malformed body (modelled as `none`) is an error.
  (The library's case-insensitive field-name fallback is not exercised by any
  theorem below and is not modelled.)
* `net/http` response writing is modelled by recording every `WriteHeader`
  status and every body write in order; per the `net/http` contract only the
  first `WriteHeader` takes effect on the wire (later ones are "superfluous"),
  which `effectiveStatus` captures.
-/

/-- `model.TODO` (model/todo.go lines 8-14): the persisted entity.
`CreatedAt`/`UpdatedAt` model `time.Time` opaquely. -/
structure TODO where
  ID : Int
  Subject : String
  Description : String
  CreatedAt : Nat
  UpdatedAt : Nat
deriving DecidableEq, Repr

/-- `model.CreateTODORequest` (model/todo.go lines 18-21). -/
structure CreateTODORequest where
  Subject : String
  Description : String
deriving DecidableEq, Repr

/-- `model.CreateTODOResponse` (model/todo.go lines 24-26). -/
structure CreateTODOResponse where
  TODO : TODO
deriving DecidableEq, Repr

/-- `model.ReadTODORequest` (model/todo.go lines 29-32). -/
structure ReadTODORequest where
  PrevID : Int
  Size : Int
deriving DecidableEq, Repr

/-- `model.ReadTODOResponse` (model/todo.go lines 34-36). -/
structure ReadTODOResponse where
  TODOs : List TODO
deriving DecidableEq, Repr

/-- `model.UpdateTODORequest` (model/todo.go lines 39-43). -/
structure UpdateTODORequest where
  ID : Int
  Subject : String
  Description : String
deriving DecidableEq, Repr

/-- `model.UpdateTODOResponse` (model/todo.go lines 45-47). -/
structure UpdateTODOResponse where
  TODO : TODO
deriving DecidableEq, Repr

/-- `model.DeleteTODORequest` (model/todo.go lines 50-52). -/
structure DeleteTODORequest where
  IDs : List Int
deriving DecidableEq, Repr

/-- `model.DeleteTODOResponse` (model/todo.go line 54): empty struct. -/
structure DeleteTODOResponse where
deriving DecidableEq, Repr

/-- Modelled from the spec: the repository's `model.ErrNotFound` error type is
referenced by handler/todo.go line 124 (`err.(*model.ErrNotFound)`) but its
defining file is not among the provided sources.  Per the spec (sections 6
and 9), the service fails "with a distinguishable not-found condition", checked
"via a type inspection on the returned error".  `GoError` models a non-nil Go
`error` value returned by a service call: `errNotFound` is a value of dynamic
type `*model.ErrNotFound`, `other msg` is any other error with message `msg`. -/
inductive GoError where
  | errNotFound
  | other (msg : String)
deriving DecidableEq, Repr

/-- The type assertion `_, ok := err.(*model.ErrNotFound)` of
handler/todo.go line 124, as a predicate on the modelled error value. -/
def GoError.isErrNotFound : GoError → Bool
  | .errNotFound => true
  | .other _ => false

/-- A JSON document, for modelling `encoding/json` decoding of request
bodies.  Numbers are restricted to integers: the two integer-typed request
fields (`id`, and `prev_id`/`size`, none of which is exercised with a
fractional literal by any theorem below) are the only numeric targets. -/
inductive Json where
  | null
  | bool (b : Bool)
  | num (n : Int)
  | str (s : String)
  | arr (elems : List Json)
  | obj (fields : List (String × Json))
deriving Repr

/-- One step of `encoding/json` object decoding into `CreateTODORequest`:
a field keyed `subject` or `description` must be a string (JSON `null` leaves
the field untouched; any other type is an unmarshalling error); unknown keys
are ignored; a later duplicate key overwrites an earlier one. -/
def setCreateField (r : CreateTODORequest) : String × Json →
    Except String CreateTODORequest
  | ("subject", Json.str s) => Except.ok { r with Subject := s }
  | ("subject", Json.null) => Except.ok r
  | ("subject", _) => Except.error "json: cannot unmarshal value into Go struct field CreateTODORequest.subject of type string"
  | ("description", Json.str s) => Except.ok { r with Description := s }
  | ("description", Json.null) => Except.ok r
  | ("description", _) => Except.error "json: cannot unmarshal value into Go struct field CreateTODORequest.description of type string"
  | (_, _) => Except.ok r

/-- `json.NewDecoder(r.Body).Decode(&req)` for `req : CreateTODORequest`
(handler/todo.go line 47).  `none` models a body that is not well-formed JSON
(including an empty body, which yields `io.EOF`); a top-level `null` leaves
the zero-valued struct untouched; a top-level non-object non-null value is an
unmarshalling error; an object is decoded field by field starting from the
zero value of the struct. -/
def decodeCreateTODORequest : Option Json → Except String CreateTODORequest
  | none => Except.error "invalid character: not well-formed JSON"
  | some Json.null => Except.ok { Subject := "", Description := "" }
  | some (Json.obj fields) =>
      fields.foldlM setCreateField { Subject := "", Description := "" }
  | some _ => Except.error "json: cannot unmarshal value into Go value of type model.CreateTODORequest"

/-- One step of `encoding/json` object decoding into `UpdateTODORequest`:
`id` must be an integer number, `subject`/`description` must be strings;
JSON `null` leaves a field untouched; unknown keys are ignored. -/
def setUpdateField (r : UpdateTODORequest) : String × Json →
    Except String UpdateTODORequest
  | ("id", Json.num n) => Except.ok { r with ID := n }
  | ("id", Json.null) => Except.ok r
  | ("id", _) => Except.error "json: cannot unmarshal value into Go struct field UpdateTODORequest.id of type int64"
  | ("subject", Json.str s) => Except.ok { r with Subject := s }
  | ("subject", Json.null) => Except.ok r
  | ("subject", _) => Except.error "json: cannot unmarshal value into Go struct field UpdateTODORequest.subject of type string"
  | ("description", Json.str s) => Except.ok { r with Description := s }
  | ("description", Json.null) => Except.ok r
  | ("description", _) => Except.error "json: cannot unmarshal value into Go struct field UpdateTODORequest.description of type string"
  | (_, _) => Except.ok r

/-- `json.NewDecoder(r.Body).Decode(&req)` for `req : UpdateTODORequest`
(handler/todo.go line 104), with the same conventions as
`decodeCreateTODORequest`. -/
def decodeUpdateTODORequest : Option Json → Except String UpdateTODORequest
  | none => Except.error "invalid character: not well-formed JSON"
  | some Json.null => Except.ok { ID := 0, Subject := "", Description := "" }
  | some (Json.obj fields) =>
      fields.foldlM setUpdateField { ID := 0, Subject := "", Description := "" }
  | some _ => Except.error "json: cannot unmarshal value into Go value of type model.UpdateTODORequest"

/-- The service collaborator `service.TODOService`, as consumed through the
pointer field `svc` of `TODOHandler` (handler/todo.go lines 15-17).  Each
field gives the result of one service call for given arguments, as the Go
pair (possibly-nil pointer result, possibly-nil error); the context argument
carries no information this layer inspects and is omitted. -/
structure TODOService where
  createTODO : String → String → Option TODO × Option GoError
  readTODO : Int → Int → Option (List TODO) × Option GoError
  updateTODO : Int → String → String → Option TODO × Option GoError
  deleteTODO : List Int → Option GoError

/-- Result of a Go call that returns `(*T, error)` and is consumed by a
caller that dereferences the pointer after a nil error: `ok` is a non-nil
result with nil error, `err` a non-nil error, and `panics` marks the runtime
panic of dereferencing a nil pointer under a nil error. -/
inductive GoCall (α : Type) where
  | ok (a : α)
  | err (e : GoError)
  | panics
deriving DecidableEq, Repr

/-- `(h *TODOHandler) Create` (handler/todo.go lines 80-91): call
`svc.CreateTODO(ctx, req.Subject, req.Description)`; a non-nil error is
returned to the caller; otherwise the returned `*model.TODO` is dereferenced
(`TODO: *todo`) — a panic if the service broke its contract and returned a
nil pointer with a nil error — and wrapped in a `CreateTODOResponse`. -/
def TODOHandler.Create (svc : TODOService) (req : CreateTODORequest) :
    GoCall CreateTODOResponse :=
  match svc.createTODO req.Subject req.Description with
  | (_, some e) => GoCall.err e
  | (some todo, none) => GoCall.ok { TODO := todo }
  | (none, none) => GoCall.panics

/-- `(h *TODOHandler) Update` (handler/todo.go lines 146-158): call
`svc.UpdateTODO(ctx, req.ID, req.Subject, req.Description)`; same shape as
`TODOHandler.Create`, dereferencing the returned pointer on a nil error. -/
def TODOHandler.Update (svc : TODOService) (req : UpdateTODORequest) :
    GoCall UpdateTODOResponse :=
  match svc.updateTODO req.ID req.Subject req.Description with
  | (_, some e) => GoCall.err e
  | (some todo, none) => GoCall.ok { TODO := todo }
  | (none, none) => GoCall.panics

/-- `(h *TODOHandler) Read` (handler/todo.go lines 94-97): the service is
called with the constant arguments `(0, 0)` — not the request's
`PrevID`/`Size` — both results are discarded (`_, _ =`), and the method
returns a fresh empty `ReadTODOResponse` with a nil error.  The value
returned is the Go pair (response pointer, error); the second component of
the outer pair records the arguments of the one `ReadTODO` call made. -/
def TODOHandler.Read (svc : TODOService) (req : ReadTODORequest) :
    (Option ReadTODOResponse × Option GoError) × List (Int × Int) :=
  ((some { TODOs := [] }, none), [(0, 0)])

/-- `(h *TODOHandler) Delete` (handler/todo.go lines 161-164): the service is
called with a nil slice of IDs (`h.svc.DeleteTODO(ctx, nil)`, the empty list
here) — not the request's `IDs` — the error is discarded (`_ =`), and the
method returns a fresh empty `DeleteTODOResponse` with a nil error.  The
second component records the argument of the one `DeleteTODO` call made. -/
def TODOHandler.Delete (svc : TODOService) (req : DeleteTODORequest) :
    (Option DeleteTODOResponse × Option GoError) × List (List Int) :=
  ((some {}, none), [[]])

/-- One chunk written to the `http.ResponseWriter` body: either plain text
(what `http.Error` writes) or the JSON encoding of a success response. -/
inductive Chunk where
  | text (s : String)
  | jsonCreate (r : CreateTODOResponse)
  | jsonUpdate (r : UpdateTODOResponse)
deriving DecidableEq, Repr

/-- The observable writes a handler makes to its `http.ResponseWriter`:
every `WriteHeader` status in order, and every body write in order. -/
structure HttpResponse where
  statusWrites : List Nat
  chunks : List Chunk
deriving DecidableEq, Repr

/-- `http.Error(w, msg, code)`: per net/http it sets the content type, calls
`w.WriteHeader(code)` and writes `msg` followed by a newline
(`fmt.Fprintln`). -/
def httpError (msg : String) (code : Nat) : HttpResponse :=
  { statusWrites := [code], chunks := [Chunk.text (msg ++ "\n")] }

/-- Modelled from the `net/http` contract: only the first `WriteHeader` call
determines the status line sent to the client; any further call is
"superfluous" and ignored (and if none happened, the first body write sends
an implicit 200). -/
def effectiveStatus (r : HttpResponse) : Nat :=
  r.statusWrites.headD 200

/-- Whether a handler run finished normally with the recorded response, or
panicked (nil-pointer dereference). -/
inductive HandleOutcome where
  | done (response : HttpResponse)
  | panicked
deriving DecidableEq, Repr

/-- Everything observable about one handler run: the outcome, the service
create/update calls made (with their arguments, in order; the calls happen
before any panic, so they are recorded even for a panicking run), and the
number of `log.Printf` diagnostics emitted. -/
structure Handled where
  outcome : HandleOutcome
  createCalls : List (String × String)
  updateCalls : List (Int × String × String)
  logs : Nat
deriving DecidableEq, Repr

/-- `(h *TODOHandler) handleCreate` (handler/todo.go lines 43-76):
decode the body into a `CreateTODORequest` (failure → log + 400
"Invalid JSON"); reject an empty `Subject` with 400 "Subject is required";
otherwise call `h.Create`; a service error → 500 "Failed to create TODO"
(constant body, the error is not echoed); success → `WriteHeader(200)` then
JSON-encode the response, and if encoding fails (`encodeOk = false`),
`http.Error(..., 500)` — a second status write after the committed 200. -/
def handleCreate (svc : TODOService) (body : Option Json) (encodeOk : Bool) :
    Handled :=
  match decodeCreateTODORequest body with
  | Except.error _ =>
      { outcome := HandleOutcome.done (httpError "Invalid JSON" 400),
        createCalls := [], updateCalls := [], logs := 1 }
  | Except.ok req =>
      if req.Subject = "" then
        { outcome := HandleOutcome.done (httpError "Subject is required" 400),
          createCalls := [], updateCalls := [], logs := 0 }
      else
        match TODOHandler.Create svc req with
        | GoCall.err _ =>
            { outcome :=
                HandleOutcome.done (httpError "Failed to create TODO" 500),
              createCalls := [(req.Subject, req.Description)],
              updateCalls := [], logs := 0 }
        | GoCall.panics =>
            { outcome := HandleOutcome.panicked,
              createCalls := [(req.Subject, req.Description)],
              updateCalls := [], logs := 0 }
        | GoCall.ok res =>
            { outcome := HandleOutcome.done
                (if encodeOk then
                  { statusWrites := [200], chunks := [Chunk.jsonCreate res] }
                else
                  { statusWrites := [200, 500],
                    chunks := [Chunk.text ("Failed to encode JSON" ++ "\n")] }),
              createCalls := [(req.Subject, req.Description)],
              updateCalls := [], logs := 0 }

/-- `(h *TODOHandler) handleUpdate` (handler/todo.go lines 101-142):
decode the body into an `UpdateTODORequest` (failure → log + 400
"Invalid JSON"); reject `ID == 0 || Subject == ""` with 400
"Invalid ID or Subject"; otherwise call `h.Update`; an error of dynamic type
`*model.ErrNotFound` → 404 "TODO not found"; any other error → log + 500
"Failed to update TODO" (constant body); success → `WriteHeader(200)` then
JSON-encode, and on encoding failure `http.Error(..., 500)` with the
source's misspelled message "Faild to encode JSON". -/
def handleUpdate (svc : TODOService) (body : Option Json) (encodeOk : Bool) :
    Handled :=
  match decodeUpdateTODORequest body with
  | Except.error _ =>
      { outcome := HandleOutcome.done (httpError "Invalid JSON" 400),
        createCalls := [], updateCalls := [], logs := 1 }
  | Except.ok req =>
      if req.ID = 0 ∨ req.Subject = "" then
        { outcome :=
            HandleOutcome.done (httpError "Invalid ID or Subject" 400),
          createCalls := [], updateCalls := [], logs := 0 }
      else
        match TODOHandler.Update svc req with
        | GoCall.err e =>
            if e.isErrNotFound then
              { outcome := HandleOutcome.done (httpError "TODO not found" 404),
                createCalls := [],
                updateCalls := [(req.ID, req.Subject, req.Description)],
                logs := 0 }
            else
              { outcome :=
                  HandleOutcome.done (httpError "Failed to update TODO" 500),
                createCalls := [],
                updateCalls := [(req.ID, req.Subject, req.Description)],
                logs := 1 }
        | GoCall.panics =>
            { outcome := HandleOutcome.panicked,
              createCalls := [],
              updateCalls := [(req.ID, req.Subject, req.Description)],
              logs := 0 }
        | GoCall.ok res =>
            { outcome := HandleOutcome.done
                (if encodeOk then
                  { statusWrites := [200], chunks := [Chunk.jsonUpdate res] }
                else
                  { statusWrites := [200, 500],
                    chunks := [Chunk.text ("Faild to encode JSON" ++ "\n")] }),
              createCalls := [],
              updateCalls := [(req.ID, req.Subject, req.Description)],
              logs := 0 }

/-- `(h *TODOHandler) ServeHTTP` (handler/todo.go lines 29-39): switch on
`r.Method` — `http.MethodPost` (the string "POST") → `handleCreate`,
`http.MethodPut` ("PUT") → `handleUpdate`, anything else →
`http.Error(w, "Method Not Allowed", 405)` without touching the body. -/
def ServeHTTP (svc : TODOService) (method : String) (body : Option Json)
    (encodeOk : Bool) : Handled :=
  if method = "POST" then handleCreate svc body encodeOk
  else if method = "PUT" then handleUpdate svc body encodeOk
  else
    { outcome := HandleOutcome.done (httpError "Method Not Allowed" 405),
      createCalls := [], updateCalls := [], logs := 0 }

/-- A sample service on which every call succeeds, echoing `Subject` and
`Description` into the returned TODO (used to instantiate hypotheses). -/
def svcOk : TODOService :=
  { createTODO := fun s d =>
      (some { ID := 1, Subject := s, Description := d,
              CreatedAt := 10, UpdatedAt := 10 }, none),
    readTODO := fun _ _ => (some [], none),
    updateTODO := fun i s d =>
      (some { ID := i, Subject := s, Description := d,
              CreatedAt := 10, UpdatedAt := 30 }, none),
    deleteTODO := fun _ => none }

/-- A sample service on which every call fails: `UpdateTODO` reports
not-found for ID 1 and a generic failure otherwise; `CreateTODO` fails
generically. -/
def svcFail : TODOService :=
  { createTODO := fun _ _ => (none, some (GoError.other "db down")),
    readTODO := fun _ _ => (none, some (GoError.other "db down")),
    updateTODO := fun i _ _ =>
      if i = 1 then (none, some GoError.errNotFound)
      else (none, some (GoError.other "db down")),
    deleteTODO := fun _ => some (GoError.other "db down") }

/-- C1: a Create or Update request whose decoded Subject is empty, and an
Update request whose decoded ID is zero, is answered with status 400
("Subject is required" resp. "Invalid ID or Subject") and the service's
create/update operation is never invoked. -/
theorem c1_empty_subject_or_zero_id_rejected (svc : TODOService)
    (body : Option Json) (encodeOk : Bool) :
    (∀ req : CreateTODORequest, decodeCreateTODORequest body = Except.ok req →
      req.Subject = "" →
      handleCreate svc body encodeOk =
        { outcome := HandleOutcome.done (httpError "Subject is required" 400),
          createCalls := [], updateCalls := [], logs := 0 }) ∧
    (∀ req : UpdateTODORequest, decodeUpdateTODORequest body = Except.ok req →
      req.ID = 0 ∨ req.Subject = "" →
      handleUpdate svc body encodeOk =
        { outcome := HandleOutcome.done (httpError "Invalid ID or Subject" 400),
          createCalls := [], updateCalls := [], logs := 0 }) := by
  constructor
  · intro req hdec hsub
    unfold handleCreate
    rw [hdec]
    simp [hsub]
  · intro req hdec hval
    unfold handleUpdate
    rw [hdec]
    simp only [if_pos hval]

/-- Witness for C1 at the concrete body `{"subject": ""}` (which decodes to
Subject `""` for Create and to ID 0, Subject `""` for Update). -/
theorem c1_witness :
    handleCreate svcOk (some (Json.obj [("subject", Json.str "")])) true =
      { outcome := HandleOutcome.done (httpError "Subject is required" 400),
        createCalls := [], updateCalls := [], logs := 0 } ∧
    handleUpdate svcOk (some (Json.obj [("subject", Json.str "")])) true =
      { outcome := HandleOutcome.done (httpError "Invalid ID or Subject" 400),
        createCalls := [], updateCalls := [], logs := 0 } :=
  ⟨(c1_empty_subject_or_zero_id_rejected svcOk
      (some (Json.obj [("subject", Json.str "")])) true).1
      { Subject := "", Description := "" } rfl rfl,
   (c1_empty_subject_or_zero_id_rejected svcOk
      (some (Json.obj [("subject", Json.str "")])) true).2
      { ID := 0, Subject := "", Description := "" } rfl (Or.inl rfl)⟩

/-- C2: the dispatcher routes POST to the Create flow and PUT to the Update
flow, and any other method gets exactly the 405 "Method Not Allowed" reply —
a constant, so independent of the body and with no service call or log. -/
theorem c2_method_dispatch (svc : TODOService) (method : String)
    (body : Option Json) (encodeOk : Bool) :
    ServeHTTP svc "POST" body encodeOk = handleCreate svc body encodeOk ∧
    ServeHTTP svc "PUT" body encodeOk = handleUpdate svc body encodeOk ∧
    (method ≠ "POST" → method ≠ "PUT" →
      ServeHTTP svc method body encodeOk =
        { outcome := HandleOutcome.done (httpError "Method Not Allowed" 405),
          createCalls := [], updateCalls := [], logs := 0 }) := by
  refine ⟨rfl, ?_, ?_⟩
  · unfold ServeHTTP
    rw [if_neg (by decide), if_pos rfl]
  · intro h1 h2
    unfold ServeHTTP
    rw [if_neg h1, if_neg h2]

/-- Witness for C2 at method GET. -/
theorem c2_witness :
    ServeHTTP svcOk "GET" (some (Json.obj [("subject", Json.str "x")])) true =
      { outcome := HandleOutcome.done (httpError "Method Not Allowed" 405),
        createCalls := [], updateCalls := [], logs := 0 } :=
  (c2_method_dispatch svcOk "GET"
      (some (Json.obj [("subject", Json.str "x")])) true).2.2
    (by decide) (by decide)

/-- C3: for a validated Update request, a service error of type
`*model.ErrNotFound` yields 404 "TODO not found"; any other Update service
error yields 500 "Failed to update TODO" with one logged diagnostic; a Create
service error yields 500 "Failed to create TODO".  In each case the client
body is the constant shown — independent of `msg`/`e`, so no internal error
detail reaches the client. -/
theorem c3_service_error_mapping (svc : TODOService) (body : Option Json)
    (encodeOk : Bool) :
    (∀ (req : UpdateTODORequest) (td : Option TODO),
      decodeUpdateTODORequest body = Except.ok req →
      ¬(req.ID = 0 ∨ req.Subject = "") →
      svc.updateTODO req.ID req.Subject req.Description =
        (td, some GoError.errNotFound) →
      handleUpdate svc body encodeOk =
        { outcome := HandleOutcome.done (httpError "TODO not found" 404),
          createCalls := [],
          updateCalls := [(req.ID, req.Subject, req.Description)],
          logs := 0 }) ∧
    (∀ (req : UpdateTODORequest) (td : Option TODO) (msg : String),
      decodeUpdateTODORequest body = Except.ok req →
      ¬(req.ID = 0 ∨ req.Subject = "") →
      svc.updateTODO req.ID req.Subject req.Description =
        (td, some (GoError.other msg)) →
      handleUpdate svc body encodeOk =
        { outcome := HandleOutcome.done (httpError "Failed to update TODO" 500),
          createCalls := [],
          updateCalls := [(req.ID, req.Subject, req.Description)],
          logs := 1 }) ∧
    (∀ (req : CreateTODORequest) (td : Option TODO) (e : GoError),
      decodeCreateTODORequest body = Except.ok req →
      req.Subject ≠ "" →
      svc.createTODO req.Subject req.Description = (td, some e) →
      handleCreate svc body encodeOk =
        { outcome := HandleOutcome.done (httpError "Failed to create TODO" 500),
          createCalls := [(req.Subject, req.Description)],
          updateCalls := [], logs := 0 }) := by
  refine ⟨?_, ?_, ?_⟩
  · intro req td hdec hval hsvc
    unfold handleUpdate
    rw [hdec]
    simp only [if_neg hval]
    unfold TODOHandler.Update
    rw [hsvc]
    simp [GoError.isErrNotFound]
  · intro req td msg hdec hval hsvc
    unfold handleUpdate
    rw [hdec]
    simp only [if_neg hval]
    unfold TODOHandler.Update
    rw [hsvc]
    simp [GoError.isErrNotFound]
  · intro req td e hdec hsub hsvc
    unfold handleCreate
    rw [hdec]
    simp only [if_neg hsub]
    unfold TODOHandler.Create
    rw [hsvc]
    cases td <;> rfl

/-- Witness for C3: `svcFail` reports not-found for Update ID 1, a generic
failure for Update ID 2, and a generic failure for Create. -/
theorem c3_witness :
    handleUpdate svcFail
      (some (Json.obj [("id", Json.num 1), ("subject", Json.str "x")])) true =
      { outcome := HandleOutcome.done (httpError "TODO not found" 404),
        createCalls := [], updateCalls := [(1, "x", "")], logs := 0 } ∧
    handleUpdate svcFail
      (some (Json.obj [("id", Json.num 2), ("subject", Json.str "x")])) true =
      { outcome := HandleOutcome.done (httpError "Failed to update TODO" 500),
        createCalls := [], updateCalls := [(2, "x", "")], logs := 1 } ∧
    handleCreate svcFail (some (Json.obj [("subject", Json.str "x")])) true =
      { outcome := HandleOutcome.done (httpError "Failed to create TODO" 500),
        createCalls := [("x", "")], updateCalls := [], logs := 0 } :=
  ⟨(c3_service_error_mapping svcFail
      (some (Json.obj [("id", Json.num 1), ("subject", Json.str "x")])) true).1
      { ID := 1, Subject := "x", Description := "" } none rfl (by decide) rfl,
   (c3_service_error_mapping svcFail
      (some (Json.obj [("id", Json.num 2), ("subject", Json.str "x")])) true).2.1
      { ID := 2, Subject := "x", Description := "" } none "db down" rfl
      (by decide) rfl,
   (c3_service_error_mapping svcFail
      (some (Json.obj [("subject", Json.str "x")])) true).2.2
      { Subject := "x", Description := "" } none (GoError.other "db down") rfl
      (by decide) rfl⟩

/-- C4 fails on the code: for every service and every request, `Read` calls
`ReadTODO` with the constant arguments `(0, 0)` — not the request's
`PrevID`/`Size` — and returns an empty response with a nil error, regardless
of what the service returns (its TODOs are discarded and its error is never
propagated). -/
theorem c4_read_ignores_request (svc : TODOService) (req : ReadTODORequest) :
    TODOHandler.Read svc req = ((some { TODOs := [] }, none), [(0, 0)]) := rfl

/-- C5 fails on the code: for every service and every request, `Delete`
calls `DeleteTODO` with a nil slice — not the request's `IDs` — and returns
an empty response with a nil error, regardless of the service's error. -/
theorem c5_delete_ignores_request (svc : TODOService)
    (req : DeleteTODORequest) :
    TODOHandler.Delete svc req = ((some {}, none), [[]]) := rfl

/-- C6: a body that fails to decode into the operation's request shape makes
Create/Update answer 400 "Invalid JSON" with one logged diagnostic and no
service call. -/
theorem c6_decode_failure_rejected (svc : TODOService) (body : Option Json)
    (encodeOk : Bool) :
    (∀ e, decodeCreateTODORequest body = Except.error e →
      handleCreate svc body encodeOk =
        { outcome := HandleOutcome.done (httpError "Invalid JSON" 400),
          createCalls := [], updateCalls := [], logs := 1 }) ∧
    (∀ e, decodeUpdateTODORequest body = Except.error e →
      handleUpdate svc body encodeOk =
        { outcome := HandleOutcome.done (httpError "Invalid JSON" 400),
          createCalls := [], updateCalls := [], logs := 1 }) := by
  constructor
  · intro e hdec
    unfold handleCreate
    rw [hdec]
  · intro e hdec
    unfold handleUpdate
    rw [hdec]

/-- Witness for C6 at a syntactically malformed body (`none`). -/
theorem c6_witness :
    handleCreate svcOk none true =
      { outcome := HandleOutcome.done (httpError "Invalid JSON" 400),
        createCalls := [], updateCalls := [], logs := 1 } ∧
    handleUpdate svcOk none true =
      { outcome := HandleOutcome.done (httpError "Invalid JSON" 400),
        createCalls := [], updateCalls := [], logs := 1 } :=
  ⟨(c6_decode_failure_rejected svcOk none true).1
      "invalid character: not well-formed JSON" rfl,
   (c6_decode_failure_rejected svcOk none true).2
      "invalid character: not well-formed JSON" rfl⟩

/-- C7: a validated Create request on which the service succeeds with TODO
`t` is answered 200 with a `CreateTODOResponse` wrapping exactly `t` (so ID
and timestamps are the service-assigned ones), after one service call with
the request's Subject and Description; and when the service echoes Subject
and Description, the response echoes the request's values. -/
theorem c7_create_success (svc : TODOService) (body : Option Json)
    (req : CreateTODORequest) (t : TODO)
    (hdec : decodeCreateTODORequest body = Except.ok req)
    (hsub : req.Subject ≠ "")
    (hsvc : svc.createTODO req.Subject req.Description = (some t, none)) :
    handleCreate svc body true =
      { outcome := HandleOutcome.done
          { statusWrites := [200], chunks := [Chunk.jsonCreate { TODO := t }] },
        createCalls := [(req.Subject, req.Description)],
        updateCalls := [], logs := 0 } ∧
    (t.Subject = req.Subject ∧ t.Description = req.Description →
      ({ TODO := t } : CreateTODOResponse).TODO.Subject = req.Subject ∧
      ({ TODO := t } : CreateTODOResponse).TODO.Description =
        req.Description) := by
  constructor
  · unfold handleCreate
    rw [hdec]
    simp only [if_neg hsub]
    unfold TODOHandler.Create
    rw [hsvc]
    simp
  · exact fun h => h

/-- Witness for C7 at `{"subject": "x", "description": "y"}` with the
echoing service `svcOk`. -/
theorem c7_witness :
    handleCreate svcOk
      (some (Json.obj
        [("subject", Json.str "x"), ("description", Json.str "y")])) true =
      { outcome := HandleOutcome.done
          { statusWrites := [200],
            chunks := [Chunk.jsonCreate
              { TODO := { ID := 1, Subject := "x", Description := "y",
                          CreatedAt := 10, UpdatedAt := 10 } }] },
        createCalls := [("x", "y")], updateCalls := [], logs := 0 } :=
  (c7_create_success svcOk
      (some (Json.obj
        [("subject", Json.str "x"), ("description", Json.str "y")]))
      { Subject := "x", Description := "y" }
      { ID := 1, Subject := "x", Description := "y",
        CreatedAt := 10, UpdatedAt := 10 }
      rfl (by decide) rfl).1

/-- C8 fails on the code: on the Create success path the 200 header is
committed (`w.WriteHeader(http.StatusOK)`) before encoding, so when encoding
fails the subsequent `http.Error(..., 500)` is a superfluous second
`WriteHeader` and the status on the wire stays 200.  Evaluated at the
failing input: POST `{"subject": "x"}`, succeeding service, failing
encoder — the recorded writes are `[200, 500]` and the effective status
is 200, not 500. -/
theorem c8_encode_failure_status_stays_200 :
    handleCreate svcOk (some (Json.obj [("subject", Json.str "x")])) false =
      { outcome := HandleOutcome.done
          { statusWrites := [200, 500],
            chunks := [Chunk.text ("Failed to encode JSON" ++ "\n")] },
        createCalls := [("x", "")], updateCalls := [], logs := 0 } ∧
    effectiveStatus
      { statusWrites := [200, 500],
        chunks := [Chunk.text ("Failed to encode JSON" ++ "\n")] } = 200 :=
  ⟨rfl, rfl⟩

/-- C9: under the service contract that a nil error comes with a non-nil
TODO pointer (for `CreateTODO` and `UpdateTODO`), handling any request —
any method, any body, any encoder behaviour — never panics: the `*todo`
dereferences in `Create` and `Update` are safe. -/
theorem c9_no_panic (svc : TODOService)
    (hc : ∀ s d, (svc.createTODO s d).2 = none → (svc.createTODO s d).1 ≠ none)
    (hu : ∀ i s d, (svc.updateTODO i s d).2 = none →
      (svc.updateTODO i s d).1 ≠ none)
    (method : String) (body : Option Json) (encodeOk : Bool) :
    (ServeHTTP svc method body encodeOk).outcome ≠ HandleOutcome.panicked := by
  have hcre : ∀ req : CreateTODORequest,
      TODOHandler.Create svc req ≠ GoCall.panics := by
    intro req h
    unfold TODOHandler.Create at h
    rcases hres : svc.createTODO req.Subject req.Description with ⟨td, err⟩
    rw [hres] at h
    cases err with
    | some e => simp at h
    | none =>
      cases td with
      | some t => simp at h
      | none =>
        exact (hc req.Subject req.Description (by rw [hres])) (by rw [hres])
  have hupd : ∀ req : UpdateTODORequest,
      TODOHandler.Update svc req ≠ GoCall.panics := by
    intro req h
    unfold TODOHandler.Update at h
    rcases hres : svc.updateTODO req.ID req.Subject req.Description with ⟨td, err⟩
    rw [hres] at h
    cases err with
    | some e => simp at h
    | none =>
      cases td with
      | some t => simp at h
      | none =>
        exact (hu req.ID req.Subject req.Description (by rw [hres]))
          (by rw [hres])
  have hC : (handleCreate svc body encodeOk).outcome ≠
      HandleOutcome.panicked := by
    unfold handleCreate
    cases hdec : decodeCreateTODORequest body with
    | error e => simp
    | ok req =>
      by_cases hsub : req.Subject = ""
      · simp [hsub]
      · simp only [if_neg hsub]
        cases hres : TODOHandler.Create svc req with
        | err e => simp
        | panics => exact absurd hres (hcre req)
        | ok res => simp
  have hU : (handleUpdate svc body encodeOk).outcome ≠
      HandleOutcome.panicked := by
    unfold handleUpdate
    cases hdec : decodeUpdateTODORequest body with
    | error e => simp
    | ok req =>
      by_cases hval : req.ID = 0 ∨ req.Subject = ""
      · simp [if_pos hval]
      · simp only [if_neg hval]
        cases hres : TODOHandler.Update svc req with
        | err e => cases e <;> simp [GoError.isErrNotFound]
        | panics => exact absurd hres (hupd req)
        | ok res => simp
  unfold ServeHTTP
  by_cases h1 : method = "POST"
  · simpa only [if_pos h1] using hC
  · simp only [if_neg h1]
    by_cases h2 : method = "PUT"
    · simpa only [if_pos h2] using hU
    · simp only [if_neg h2]
      simp

/-- Witness for C9 with the contract-respecting service `svcOk` on a POST. -/
theorem c9_witness :
    (ServeHTTP svcOk "POST" (some (Json.obj [("subject", Json.str "x")]))
        true).outcome ≠ HandleOutcome.panicked :=
  c9_no_panic svcOk
    (fun s d h => by simp [svcOk])
    (fun i s d h => by simp [svcOk])
    "POST" (some (Json.obj [("subject", Json.str "x")])) true

/-- C10: a JSON field absent from a well-formed object body decodes to the
Go zero value instead of erroring — `{"subject": "x"}` decodes to Subject
"x" and Description "" and makes Create call the service with ("x", "") —
and the extra validation never touches Description: every decoded Create
request with non-empty Subject, and every decoded Update request with
non-zero ID and non-empty Subject, reaches the service call with its
Description passed through verbatim, whatever it is. -/
theorem c10_description_not_validated (svc : TODOService) (encodeOk : Bool) :
    decodeCreateTODORequest (some (Json.obj [("subject", Json.str "x")])) =
      Except.ok { Subject := "x", Description := "" } ∧
    (handleCreate svc (some (Json.obj [("subject", Json.str "x")]))
        encodeOk).createCalls = [("x", "")] ∧
    (∀ (body : Option Json) (req : CreateTODORequest),
      decodeCreateTODORequest body = Except.ok req → req.Subject ≠ "" →
      (handleCreate svc body encodeOk).createCalls =
        [(req.Subject, req.Description)]) ∧
    (∀ (body : Option Json) (req : UpdateTODORequest),
      decodeUpdateTODORequest body = Except.ok req →
      req.ID ≠ 0 → req.Subject ≠ "" →
      (handleUpdate svc body encodeOk).updateCalls =
        [(req.ID, req.Subject, req.Description)]) := by
  have h3 : ∀ (body : Option Json) (req : CreateTODORequest),
      decodeCreateTODORequest body = Except.ok req → req.Subject ≠ "" →
      (handleCreate svc body encodeOk).createCalls =
        [(req.Subject, req.Description)] := by
    intro body req hdec hsub
    unfold handleCreate
    rw [hdec]
    simp only [if_neg hsub]
    cases TODOHandler.Create svc req <;> simp
  refine ⟨rfl, h3 _ { Subject := "x", Description := "" } rfl (by decide),
    h3, ?_⟩
  intro body req hdec hid hsub
  have hval : ¬(req.ID = 0 ∨ req.Subject = "") := by
    rintro (h | h)
    · exact hid h
    · exact hsub h
  unfold handleUpdate
  rw [hdec]
  simp only [if_neg hval]
  cases hres : TODOHandler.Update svc req with
  | err e => cases e <;> simp [GoError.isErrNotFound]
  | panics => simp
  | ok res => simp

/-- Witness for C10: a Create body with a long untouched description and an
Update body with no description at all both reach the service verbatim. -/
theorem c10_witness :
    (handleCreate svcOk
      (some (Json.obj [("subject", Json.str "x"),
        ("description", Json.str "anything, unvalidated")]))
      true).createCalls = [("x", "anything, unvalidated")] ∧
    (handleUpdate svcOk
      (some (Json.obj [("id", Json.num 7), ("subject", Json.str "x")]))
      true).updateCalls = [(7, "x", "")] :=
  ⟨(c10_description_not_validated svcOk true).2.2.1 _
      { Subject := "x", Description := "anything, unvalidated" } rfl
      (by decide),
   (c10_description_not_validated svcOk true).2.2.2 _
      { ID := 7, Subject := "x", Description := "" } rfl
      (by decide) (by decide)⟩
